import Mathlib

/-!
Verification of the my_strava ingestion-and-derivation pipeline.

Shallow embedding of the core numeric and control logic of the repository:

* `PowerCalculator` embeds `src/jobs/power_metrics.py` (rolling averages,
  best power intervals, normalized power).  Python floats are modelled as
  exact rationals; the final fourth root of the normalized-power
  computation lives in `ℝ` (`Real.rpow`).
* `TrainingLoadCalculator` embeds `src/jobs/training_load.py`
  (the same-date TSS fold of `sync_training_load` and the CTL/ATL/TSB
  recurrence of `_calculate_fitness_metrics`).  Floats are modelled as
  real numbers because the gap decay uses `math.exp`.
* `StravaClient` embeds the pure control logic of
  `src/jobs/strava_client.py` (`get_access_token`, `check_rate_limits`,
  the pagination loop of `fetch_activities`); network responses are passed
  in explicitly as data.
* `ActivityLoader` embeds the deduplicating persistence step
  `ActivityLoader.save_activities` of `src/jobs/activity_loader.py`;
  the database table is modelled as the list of persisted rows.
-/

namespace MyStrava

namespace PowerCalculator

/-- Fuelled version of the `while` loop inside
`PowerCalculator.rolling_average` (src/jobs/power_metrics.py lines
145-147): starting from `e`, advance while `e < len(time_data)` and
`time_data[e] - ti < w`.  The fuel is always called with
`time_data.length`, which bounds the number of iterations, so the
fuelled function agrees with the Python loop. -/
def advanceEndAux (time_data : List ℚ) (ti w : ℚ) : ℕ → ℕ → ℕ
  | 0, e => e
  | fuel + 1, e =>
      if e < time_data.length then
        if time_data.getD e 0 - ti < w then advanceEndAux time_data ti w fuel (e + 1) else e
      else e

/-- The value of `end_idx` after the `while` loop of `rolling_average`
for start index `i`.  `time_data[i]` is only ever read by Python under the
guard `end_idx < len(time_data)` (with `end_idx = i` at the first test),
so using `getD i 0` here is faithful: the default is never consulted on a
path where Python would read the entry. -/
def windowEnd (time_data : List ℚ) (i : ℕ) (w : ℚ) : ℕ :=
  advanceEndAux time_data (time_data.getD i 0) w time_data.length i

/-- The body of the `for i in range(len(power_data))` loop of
`rolling_average` (src/jobs/power_metrics.py lines 143-154): the average
of `power_data[i:end_idx]` when the window is valid (`end_idx > i` and
the slice nonempty), else no appended result. -/
def window_average (power_data time_data : List ℚ) (window_seconds : ℚ) (i : ℕ) :
    Option ℚ :=
  let e := windowEnd time_data i window_seconds
  if i < e then
    let window_data := (power_data.drop i).take (e - i)
    if window_data.isEmpty then none
    else some (window_data.sum / (window_data.length : ℚ))
  else none

/-- Embedding of `PowerCalculator.rolling_average` (src/jobs/power_metrics.py
lines 124-156): for each index `i`, average the samples
`power_data[i:end_idx]` where `end_idx` is the first index whose elapsed
time is `window_seconds` or more past `time_data[i]`; return `[0]` when
the series has fewer than 2 samples or no window was produced. -/
def rolling_average (power_data time_data : List ℚ) (window_seconds : ℚ) : List ℚ :=
  if power_data.length < 2 then [0]
  else
    let results := (List.range power_data.length).filterMap
      (window_average power_data time_data window_seconds)
    if results.isEmpty then [0] else results

/-- Embedding of `PowerCalculator.calculate_normalized_power`
(src/jobs/power_metrics.py lines 158-193): 30-second forward rolling
average, fourth powers, mean, fourth root (`pow(_, 0.25)` modelled as
`Real.rpow`); returns 0 for series with fewer than 30 samples. -/
noncomputable def calculate_normalized_power (power_data time_data : List ℚ) : ℝ :=
  if power_data.length < 30 then 0
  else
    let thirty_sec_avg := rolling_average power_data time_data 30
    let fourth_powers := thirty_sec_avg.map fun avg => avg ^ 4
    if fourth_powers.isEmpty then 0
    else (((fourth_powers.sum / (fourth_powers.length : ℚ) : ℚ) : ℝ)) ^ (0.25 : ℝ)

/-- Python's `max` on a list (raises on `[]`; every use in
`calculate_power_intervals` is on a list that is provably nonempty, so
the `[]` case is dead code, set to 0). -/
def pymax : List ℚ → ℚ
  | [] => 0
  | x :: xs => xs.foldl max x

/-- The dictionary returned by `PowerCalculator.calculate_power_intervals`. -/
structure PowerMetrics where
  best_10m_power : ℚ
  best_20m_power : ℚ
  best_30m_power : ℚ
  best_45m_power : ℚ
  best_1hr_power : ℚ
  max_power : ℚ
  normalized_power : ℝ

/-- Embedding of `PowerCalculator.calculate_power_intervals`
(src/jobs/power_metrics.py lines 8-122).  The two input lists model
`stream_data['watts']` and `stream_data['time']`; `none` models the
`return None` validation failures (missing keys are modelled by the
caller simply not having the lists).  Sample pairs with negative power
are dropped by the `valid_data` filter exactly as in the source. -/
noncomputable def calculate_power_intervals (watts time_data : List ℚ) :
    Option PowerMetrics :=
  if watts.length ≠ time_data.length then none
  else
    let valid_data := (watts.zip time_data).filter fun pt => decide (0 ≤ pt.1)
    if valid_data.isEmpty then none
    else
      let power_data := valid_data.map Prod.fst
      let time_data := valid_data.map Prod.snd
      some
        { best_10m_power :=
            if 600 ≤ power_data.length then pymax (rolling_average power_data time_data 600)
            else 0
          best_20m_power :=
            if 1200 ≤ power_data.length then pymax (rolling_average power_data time_data 1200)
            else 0
          best_30m_power :=
            if 1800 ≤ power_data.length then pymax (rolling_average power_data time_data 1800)
            else 0
          best_45m_power :=
            if 2700 ≤ power_data.length then pymax (rolling_average power_data time_data 2700)
            else 0
          best_1hr_power :=
            if 3600 ≤ power_data.length then pymax (rolling_average power_data time_data 3600)
            else 0
          max_power := pymax power_data
          normalized_power := calculate_normalized_power power_data time_data }

end PowerCalculator

namespace TrainingLoadCalculator

/-- One entry of the `training_loads` list built by
`TrainingLoadCalculator.sync_training_load` (src/jobs/training_load.py
lines 118-128): the per-date dictionary that is later updated in place by
`_calculate_fitness_metrics`. -/
structure TLEntry where
  date : ℤ
  tss : ℝ
  ctl : ℝ
  atl : ℝ
  tsb : ℝ
  avg_normalized_power : ℝ
  max_daily_power : ℝ
  power_balance : ℝ
  power_tss : ℝ

instance : Inhabited TLEntry := ⟨⟨0, 0, 0, 0, 0, 0, 0, 0, 0⟩⟩

/-- `atl_days = 7` (src/jobs/training_load.py line 145). -/
def atl_days : ℝ := 7

/-- `atl_decay_variable = 0.9` (src/jobs/training_load.py line 146). -/
def atl_decay_variable : ℝ := 0.9

/-- `atl_increase_dampening = 0.7` (src/jobs/training_load.py line 147). -/
def atl_increase_dampening : ℝ := 0.7

/-- One iteration of the loop of
`TrainingLoadCalculator._calculate_fitness_metrics`
(src/jobs/training_load.py lines 157-172): compute `curr`'s CTL/ATL from
`prev`'s, branching on the day gap, then set `tsb = ctl - atl`. -/
noncomputable def fitStep (prev curr : TLEntry) : TLEntry :=
  let date_diff : ℤ := curr.date - prev.date
  if date_diff = 1 then
    let ctl := prev.ctl + (curr.tss - prev.ctl) / 42
    let atl := prev.atl + atl_increase_dampening * ((curr.tss - prev.atl) / atl_days)
    { curr with ctl := ctl, atl := atl, tsb := ctl - atl }
  else
    let decayed_ctl := prev.ctl * Real.exp (-((date_diff : ℝ) - 1) / 42)
    let ctl := decayed_ctl + (curr.tss - decayed_ctl) / 42
    let decay_atl := atl_decay_variable ^ date_diff
    let atl := prev.atl * decay_atl +
      atl_increase_dampening * (curr.tss * (1 - decay_atl) / atl_days)
    { curr with ctl := ctl, atl := atl, tsb := ctl - atl }

/-- Initialization of the first (chronologically earliest) entry
(src/jobs/training_load.py lines 152-155): `ctl = tss/42`,
`atl = tss/atl_days`, `tsb = ctl - atl`. -/
noncomputable def initFirst (e : TLEntry) : TLEntry :=
  let ctl := e.tss / 42
  let atl := e.tss / atl_days
  { e with ctl := ctl, atl := atl, tsb := ctl - atl }

/-- The `for i in range(1, len(training_loads))` loop of
`_calculate_fitness_metrics`, threading the previous updated entry. -/
noncomputable def recurrence : TLEntry → List TLEntry → List TLEntry
  | _, [] => []
  | prev, curr :: rest =>
      let c := fitStep prev curr
      c :: recurrence c rest

/-- The sort key `lambda x: x["date"]` of line 150. -/
def dateLE (a b : TLEntry) : Prop := a.date ≤ b.date

instance : DecidableRel dateLE := fun a b => Int.decLe a.date b.date

/-- Embedding of `TrainingLoadCalculator._calculate_fitness_metrics`
(src/jobs/training_load.py lines 138-172): stable-sort the entries by
date (Python's `list.sort(key=...)`; `List.insertionSort` with `≤` on the
key is the same stable sort), initialize the first entry, then run the
recurrence.  The Python function mutates the list; the embedding returns
the updated (sorted) list. -/
noncomputable def calculate_fitness_metrics (training_loads : List TLEntry) :
    List TLEntry :=
  match List.insertionSort dateLE training_loads with
  | [] => []
  | first :: rest =>
      let f := initFirst first
      f :: recurrence f rest

/-- The per-activity values that enter the same-date fold of
`sync_training_load` (src/jobs/training_load.py lines 84-105): the
activity's calendar date together with the TSS and power figures derived
for it on lines 96-101. -/
structure ActivityDay where
  date : ℤ
  tss : ℝ
  power_tss : ℝ
  avg_normalized_power : ℝ
  max_daily_power : ℝ

/-- Updating an existing same-date entry (src/jobs/training_load.py lines
110-115): TSS and power-TSS accumulate, the power fields take the max. -/
def mergeEntry (tl : TLEntry) (a : ActivityDay) : TLEntry :=
  { tl with
    tss := tl.tss + a.tss
    power_tss := tl.power_tss + a.power_tss
    avg_normalized_power := max tl.avg_normalized_power a.avg_normalized_power
    max_daily_power := max tl.max_daily_power a.max_daily_power }

/-- A freshly created entry (src/jobs/training_load.py lines 117-128). -/
def freshEntry (a : ActivityDay) : TLEntry :=
  ⟨a.date, a.tss, 0, 0, 0, a.avg_normalized_power, a.max_daily_power, 1, a.power_tss⟩

/-- In-place mutation of the first list element with the given date
(Python's `next((tl for tl in training_loads if tl["date"] == date), None)`
followed by updating that dictionary). -/
def updateFirst (d : ℤ) (f : TLEntry → TLEntry) : List TLEntry → List TLEntry
  | [] => []
  | x :: xs => if x.date = d then f x :: xs else x :: updateFirst d f xs

/-- Body of the per-activity loop of `sync_training_load`
(src/jobs/training_load.py lines 107-128): merge into the existing
same-date entry if present, else append a new entry. -/
def addActivity (training_loads : List TLEntry) (a : ActivityDay) : List TLEntry :=
  if training_loads.any fun tl => decide (tl.date = a.date) then
    updateFirst a.date (fun tl => mergeEntry tl a) training_loads
  else training_loads ++ [freshEntry a]

/-- The whole same-date fold over the chronological activity list. -/
def buildDailyLoads (acts : List ActivityDay) : List TLEntry :=
  acts.foldl addActivity []

/-- The list of daily records computed by
`TrainingLoadCalculator.sync_training_load` (src/jobs/training_load.py
lines 41-136) before it is saved: the same-date fold followed by
`_calculate_fitness_metrics`. -/
noncomputable def sync_training_load (acts : List ActivityDay) : List TLEntry :=
  calculate_fitness_metrics (buildDailyLoads acts)

/-- Total TSS contributed by the activities falling on date `d`. -/
def sumTssOn (acts : List ActivityDay) (d : ℤ) : ℝ :=
  ((acts.filter fun a => decide (a.date = d)).map (·.tss)).sum

end TrainingLoadCalculator

namespace StravaClient

/-- The rate-limit related response headers read by
`StravaClient.check_rate_limits` (src/jobs/strava_client.py lines
97-181); `none` models an absent header. -/
structure Headers where
  rate_limit_usage : Option String
  rate_limit_limit : Option String
  read_rate_limit_usage : Option String
  read_rate_limit_limit : Option String
  rate_limit_reset : Option String

/-- Python `str.split(",")`, implemented structurally over the character
list: splitting an empty string yields `[""]`, and every comma starts a
new (possibly empty) part, exactly as in Python. -/
def splitCommaAux : List Char → List Char → List String
  | [], acc => [String.mk acc.reverse]
  | c :: cs, acc =>
      if c = ',' then String.mk acc.reverse :: splitCommaAux cs []
      else splitCommaAux cs (c :: acc)

/-- Python `str.split(",")` on a string. -/
def splitComma (s : String) : List String := splitCommaAux s.data []

/-- Accumulator loop for `pyInt`: consume decimal digits, failing on any
other character (Python `int` raises `ValueError`). -/
def digitsAux : List Char → ℕ → Option ℕ
  | [], acc => some acc
  | c :: cs, acc =>
      if c.isDigit then digitsAux cs (acc * 10 + (c.toNat - '0'.toNat)) else none

/-- A nonempty all-digit character list as a natural number. -/
def digitsToNat : List Char → Option ℕ
  | [] => none
  | l => digitsAux l 0

/-- Python `int(...)` applied to a decimal string literal (optional sign
followed by digits); any other form raises `ValueError`, modelled as
`none`. -/
def pyInt (s : String) : Option ℤ :=
  match s.data with
  | '-' :: rest => (digitsToNat rest).map fun n => -(n : ℤ)
  | '+' :: rest => (digitsToNat rest).map fun n => (n : ℤ)
  | l => (digitsToNat l).map fun n => (n : ℤ)

/-- The inner `parse_header` helper (src/jobs/strava_client.py lines
120-129): split on a comma, convert both parts with `int`, and fall back
to the default on a missing header, a wrong number of parts, or a
`ValueError`. -/
def parse_header (header : Option String) (default : ℤ × ℤ) : ℤ × ℤ :=
  match header with
  | none => default
  | some s =>
      match splitComma s with
      | [a, b] =>
          match pyInt a, pyInt b with
          | some x, some y => (x, y)
          | _, _ => default
      | _ => default

/-- The sleep the gate performs before returning not-ok: either a number
of seconds (the provider-declared reset, or the 15-second fallback), or
the wait until UTC midnight plus buffer of the daily branch. -/
inductive GateSleep where
  | forSeconds : ℤ → GateSleep
  | untilDailyReset : GateSleep
deriving DecidableEq, Repr

/-- Embedding of `StravaClient.check_rate_limits` (src/jobs/strava_client.py
lines 97-181).  Returns the boolean result together with the sleep it
performed (`none` when it did not sleep).  The mutation of the
`_api_usage` statistics dictionary (lines 113-117) only feeds
`get_api_usage` and does not influence the result, so it is not modelled. -/
def check_rate_limits (h : Headers) : Bool × Option GateSleep :=
  let usage := parse_header h.rate_limit_usage (0, 0)
  let limits := parse_header h.rate_limit_limit (100, 1000)
  let read_usage := parse_header h.read_rate_limit_usage (0, 0)
  let read_limits := parse_header h.read_rate_limit_limit (100, 1000)
  if limits.1 - 2 ≤ usage.1 ∨ read_limits.1 - 2 ≤ read_usage.1 then
    (false, some (GateSleep.forSeconds ((pyInt (h.rate_limit_reset.getD "15")).getD 15)))
  else if limits.2 ≤ usage.2 ∨ read_limits.2 ≤ read_usage.2 then
    (false, some GateSleep.untilDailyReset)
  else (true, none)

/-- One scripted HTTP response for the pagination loop of
`fetch_activities`: its status code, its rate-limit headers, and the
decoded JSON body (a list of activity summaries, identified here by their
ids). -/
structure PageResponse where
  status : ℕ
  headers : Headers
  body : List ℤ

/-- The `while True` pagination loop of `StravaClient.fetch_activities`
(src/jobs/strava_client.py lines 195-237), driven by a script of
responses (one consumed per `requests.get`).  `refreshes` scripts the
results of the `get_access_token` calls made on 401; `attempts` is
`token_refresh_attempts`.  An exhausted script models a request that
raises `RequestException`, which the source catches and turns into
`break`. -/
def fetchGo : List PageResponse → List (Option String) → ℕ → List ℤ → List ℤ
  | [], _, _, acc => acc
  | r :: rest, refreshes, attempts, acc =>
      if r.status = 401 then
        if 3 ≤ attempts then []
        else
          match refreshes with
          | [] => []
          | none :: _ => []
          | some _ :: ts => fetchGo rest ts (attempts + 1) acc
      else if (check_rate_limits r.headers).1 = false then acc
      else if 400 ≤ r.status then acc
      else if r.body.isEmpty then acc
      else fetchGo rest refreshes attempts (acc ++ r.body)

/-- Embedding of `StravaClient.fetch_activities` (src/jobs/strava_client.py
lines 183-238): an initial missing token short-circuits to `[]`, else the
pagination loop runs over the scripted responses. -/
def fetch_activities (token : Option String) (script : List PageResponse)
    (refreshes : List (Option String)) : List ℤ :=
  match token with
  | none => []
  | some _ => fetchGo script refreshes 0 []

/-- The token data returned by the OAuth refresh-token exchange
(src/jobs/strava_client.py lines 67-71). -/
structure TokenData where
  access_token : String
  expires_at : ℤ

/-- The token-holding part of the `StravaClient` object state
(`self.access_token`, `self.token_expires_at`). -/
structure ClientTokenState where
  access_token : Option String
  token_expires_at : ℤ

/-- Python truthiness of an optional string (`if self.access_token`):
false for `None` and for the empty string. -/
def tokenTruthy : Option String → Bool
  | none => false
  | some s => !s.isEmpty

/-- Embedding of `StravaClient.get_access_token` (src/jobs/strava_client.py
lines 42-85).  `exchange` is the outcome of the OAuth refresh POST:
`some td` for a successful exchange, `none` when the request raises
`RequestException` (which the source catches, printing and returning
`None`).  The result is the returned token, the new object state, and
whether any I/O (the POST and the `.env` write) was performed.  Every
exception inside the function body is caught by the source, so the
embedding is a total function: failure is signalled by a `none` token,
not by an exception. -/
def get_access_token (st : ClientTokenState) (current_time : ℤ) (force_refresh : Bool)
    (exchange : Option TokenData) : Option String × ClientTokenState × Bool :=
  if force_refresh = false ∧ tokenTruthy st.access_token = true ∧
      current_time + 60 < st.token_expires_at then
    (st.access_token, st, false)
  else
    match exchange with
    | some td => (some td.access_token, ⟨some td.access_token, td.expires_at⟩, true)
    | none => (none, st, true)

/-- Embedding of `StravaClient.__init__` (src/jobs/strava_client.py lines
15-40), taking the relevant environment variables as arguments: raises
`ValueError` (modelled by `Except.error`) when client id, client secret
or refresh token is missing or empty, and also when the saved
`STRAVA_TOKEN_EXPIRES_AT` string is not an integer literal (an uncaught
`ValueError` from `int(...)`). -/
def client_init (client_id client_secret refresh_token saved_access_token : Option String)
    (saved_expires_at : Option String) : Except String ClientTokenState :=
  if tokenTruthy client_id = false ∨ tokenTruthy client_secret = false ∨
      tokenTruthy refresh_token = false then
    Except.error "Missing required environment variables for Strava API"
  else
    match pyInt (saved_expires_at.getD "0") with
    | some n => Except.ok ⟨saved_access_token, n⟩
    | none => Except.error "invalid literal for int() with base 10"

end StravaClient

namespace ActivityLoader

/-- One activity summary dictionary from the Strava activities endpoint,
as consumed by `ActivityLoader.save_activities` (src/jobs/activity_loader.py
lines 79-107).  Numeric fields are `Option`s because the JSON values may
be `null` (Python `None`, replaced by 0 in the conversion).
`start_date` holds the result of
`datetime.strptime(act["start_date"], "%Y-%m-%dT%H:%M:%SZ")` on the raw
string, as a timestamp: `none` models a string that fails to parse, which
raises the `ValueError` caught on line 111. -/
structure RawActivity where
  id : ℤ
  name : String
  distance : Option ℝ
  moving_time : Option ℤ
  elapsed_time : Option ℤ
  total_elevation_gain : Option ℝ
  average_speed : Option ℝ
  max_speed : Option ℝ
  start_date : Option ℤ

/-- One persisted `Activity` row (the fields written by the loader). -/
structure ActivityRow where
  strava_id : ℤ
  name : String
  distance : ℝ
  moving_time : ℤ
  elapsed_time : ℤ
  total_elevation_gain : ℝ
  average_speed : ℝ
  max_speed : ℝ
  start_date : ℤ

/-- The field conversion of src/jobs/activity_loader.py lines 82-107:
unit conversions (meters to miles, m/s to mph), `None`-to-0 defaults, and
the timestamp parse; `none` models the `(ValueError, TypeError)` handler
that skips the record. -/
def convertActivity (act : RawActivity) : Option ActivityRow :=
  match act.start_date with
  | none => none
  | some d =>
      some
        { strava_id := act.id
          name := act.name
          distance := act.distance.getD 0 * 0.000621371
          moving_time := act.moving_time.getD 0
          elapsed_time := act.elapsed_time.getD 0
          total_elevation_gain := act.total_elevation_gain.getD 0
          average_speed := act.average_speed.getD 0 * 2.23694
          max_speed := act.max_speed.getD 0 * 2.23694
          start_date := d }

/-- Embedding of `ActivityLoader.save_activities`
(src/jobs/activity_loader.py lines 56-142) on the successful-commit path:
`existing_ids` is computed once from the persisted state, every activity
whose id is already known is skipped, the rest are converted (conversion
failures are skipped and counted), and the new rows are committed.  The
persisted table is modelled as the list of its rows; the returned list is
the table after the commit. -/
noncomputable def save_activities (state : List ActivityRow) (activities : List RawActivity) :
    List ActivityRow :=
  let existing_ids := state.map (·.strava_id)
  let new_activities := activities.filterMap fun act =>
    if act.id ∈ existing_ids then none else convertActivity act
  state ++ new_activities

end ActivityLoader

/-! ## Helper lemmas about the power calculator -/

namespace PowerCalculator

theorem advanceEndAux_ge (time_data : List ℚ) (ti w : ℚ) :
    ∀ fuel e : ℕ, e ≤ advanceEndAux time_data ti w fuel e := by
  intro fuel
  induction fuel with
  | zero => intro e; simp [advanceEndAux]
  | succ f ih =>
      intro e
      simp only [advanceEndAux]
      split
      · split
        · exact le_trans (Nat.le_succ e) (ih (e + 1))
        · exact le_refl e
      · exact le_refl e

theorem windowEnd_gt (time_data : List ℚ) (i : ℕ) (w : ℚ)
    (hi : i < time_data.length) (hw : 0 < w) : i < windowEnd time_data i w := by
  unfold windowEnd
  have h1 : time_data.length = (time_data.length - 1) + 1 := by omega
  rw [h1]
  simp only [advanceEndAux]
  rw [if_pos hi, if_pos (by rw [sub_self]; exact hw)]
  exact Nat.lt_of_lt_of_le (Nat.lt_succ_self i) (advanceEndAux_ge _ _ _ _ _)

theorem filterMap_const_some {α β : Type} (c : β) (l : List α) :
    (l.filterMap fun _ => some c) = List.replicate l.length c := by
  induction l with
  | nil => rfl
  | cons x xs ih => simp [List.filterMap_cons, ih, List.replicate_succ]

/-- On a constant power series over 1-second-spaced time stamps, every
produced window average equals the constant. -/
theorem window_average_replicate (c : ℚ) (n : ℕ) (w : ℚ) (hw : 0 < w)
    (i : ℕ) (hi : i < n) :
    window_average (List.replicate n c) ((List.range n).map (fun j : ℕ => (j : ℚ))) w i =
      some c := by
  have hlen : ((List.range n).map (fun j : ℕ => (j : ℚ))).length = n := by
    rw [List.length_map, List.length_range]
  have he : i < windowEnd ((List.range n).map (fun j : ℕ => (j : ℚ))) i w :=
    windowEnd_gt _ _ _ (by omega) hw
  unfold window_average
  rw [if_pos he]
  have hwd :
      ((List.replicate n c).drop i).take
          (windowEnd ((List.range n).map (fun j : ℕ => (j : ℚ))) i w - i) =
        List.replicate
          (min (windowEnd ((List.range n).map (fun j : ℕ => (j : ℚ))) i w - i) (n - i)) c := by
    rw [List.drop_replicate, List.take_replicate]
  have hk : 0 < min (windowEnd ((List.range n).map (fun j : ℕ => (j : ℚ))) i w - i) (n - i) := by
    omega
  rw [hwd, if_neg (by rw [List.isEmpty_iff, List.replicate_eq_nil_iff]; omega)]
  have hkq :
      ((min (windowEnd ((List.range n).map (fun j : ℕ => (j : ℚ))) i w - i) (n - i) : ℕ) : ℚ) ≠
        0 := by
    exact_mod_cast Nat.pos_iff_ne_zero.mp hk
  rw [List.sum_replicate, List.length_replicate, nsmul_eq_mul,
    mul_div_cancel_left₀ c hkq]

theorem rolling_average_replicate (c : ℚ) (n : ℕ) (hn : 2 ≤ n) :
    rolling_average (List.replicate n c) ((List.range n).map (fun j : ℕ => (j : ℚ))) 30 =
      List.replicate n c := by
  unfold rolling_average
  rw [List.length_replicate, if_neg (by omega)]
  have hres :
      ((List.range n).filterMap
        (window_average (List.replicate n c) ((List.range n).map (fun j : ℕ => (j : ℚ))) 30)) =
        List.replicate n c := by
    rw [List.filterMap_congr (g := fun _ => some c) fun i hi =>
      window_average_replicate c n 30 (by norm_num) i (List.mem_range.mp hi)]
    rw [filterMap_const_some, List.length_range]
  rw [hres]
  rw [if_neg (by rw [List.isEmpty_iff, List.replicate_eq_nil_iff]; omega)]

theorem calculate_normalized_power_replicate (c : ℚ) (hc : 0 ≤ c) (n : ℕ)
    (hn : 30 ≤ n) :
    calculate_normalized_power (List.replicate n c)
        ((List.range n).map (fun j : ℕ => (j : ℚ))) = (c : ℝ) := by
  simp only [calculate_normalized_power]
  rw [List.length_replicate, if_neg (by omega)]
  rw [rolling_average_replicate c n (by omega), List.map_replicate]
  rw [if_neg (by rw [List.isEmpty_iff, List.replicate_eq_nil_iff]; omega)]
  rw [List.sum_replicate, List.length_replicate, nsmul_eq_mul]
  have hnq : ((n : ℕ) : ℚ) ≠ 0 := by
    exact_mod_cast (by omega : n ≠ 0)
  rw [mul_div_cancel_left₀ _ hnq]
  push_cast
  rw [show (0.25 : ℝ) = ((4 : ℕ) : ℝ)⁻¹ by norm_num]
  exact Real.pow_rpow_inv_natCast (by positivity) (by norm_num)

end PowerCalculator

/-! ## Claims about the power calculator -/

/-- C3: for every constant power series of at least 30 samples (with
1-second-spaced time stamps), the normalized-power computation (30-second
forward rolling average, 4th power, mean, 4th root) returns exactly that
constant; and for every series with fewer than 30 samples it returns 0. -/
theorem C3_normalized_power_constant :
    (∀ c : ℚ, 0 ≤ c → ∀ n : ℕ, 30 ≤ n →
      PowerCalculator.calculate_normalized_power (List.replicate n c)
        ((List.range n).map (fun j : ℕ => (j : ℚ))) = (c : ℝ)) ∧
    (∀ power_data time_data : List ℚ, power_data.length < 30 →
      PowerCalculator.calculate_normalized_power power_data time_data = 0) := by
  constructor
  · exact fun c hc n hn =>
      PowerCalculator.calculate_normalized_power_replicate c hc n hn
  · intro p t h
    simp only [PowerCalculator.calculate_normalized_power]
    rw [if_pos h]

/-- Witness for C3: the constant series of 30 samples at 200 W yields
exactly 200, and a single-sample series yields 0. -/
theorem C3_normalized_power_constant_witness :
    PowerCalculator.calculate_normalized_power (List.replicate 30 (200 : ℚ))
        ((List.range 30).map (fun j : ℕ => (j : ℚ))) = ((200 : ℚ) : ℝ) ∧
    PowerCalculator.calculate_normalized_power [100] [0] = 0 :=
  ⟨C3_normalized_power_constant.1 200 (by norm_num) 30 (by norm_num),
   C3_normalized_power_constant.2 [100] [0] (by decide)⟩

/-- C10: for every input, the rolling-average helper returns a non-empty
list (the sentinel `[0]` when the power series has fewer than 2 samples
or no window can be formed), so taking the maximum of its result in the
interval computation is always defined. -/
theorem C10_rolling_average_nonempty (power_data time_data : List ℚ) (w : ℚ) :
    PowerCalculator.rolling_average power_data time_data w ≠ [] ∧
    (power_data.length < 2 →
      PowerCalculator.rolling_average power_data time_data w = [0]) := by
  constructor
  · simp only [PowerCalculator.rolling_average]
    split_ifs with h1 h2
    · simp
    · simp
    · intro hc
      rw [hc] at h2
      exact h2 rfl
  · intro h
    simp only [PowerCalculator.rolling_average]
    rw [if_pos h]

/-- Witness for C10 at a one-sample series: the result is the sentinel
`[0]`, in particular non-empty. -/
theorem C10_rolling_average_nonempty_witness :
    PowerCalculator.rolling_average [1] [1] 30 = [0] ∧
    PowerCalculator.rolling_average [1] [1] 30 ≠ [] :=
  ⟨(C10_rolling_average_nonempty [1] [1] 30).2 (by decide),
   (C10_rolling_average_nonempty [1] [1] 30).1⟩

/-- C5: for every validated power/time series (equal lengths, nonnegative
samples, nonempty) and each fixed window in {600, 1200, 1800, 2700,
3600} seconds, the power-interval computation returns the maximum of the
forward rolling averages over that window, and returns 0 (no error: the
result is still `some`) for any window whose length exceeds the series
length. -/
theorem C5_power_intervals (watts time_data : List ℚ)
    (hlen : watts.length = time_data.length)
    (hnn : ∀ x ∈ watts, 0 ≤ x) (hne : watts ≠ []) :
    PowerCalculator.calculate_power_intervals watts time_data =
      some
        { best_10m_power :=
            if 600 ≤ watts.length then
              PowerCalculator.pymax (PowerCalculator.rolling_average watts time_data 600)
            else 0
          best_20m_power :=
            if 1200 ≤ watts.length then
              PowerCalculator.pymax (PowerCalculator.rolling_average watts time_data 1200)
            else 0
          best_30m_power :=
            if 1800 ≤ watts.length then
              PowerCalculator.pymax (PowerCalculator.rolling_average watts time_data 1800)
            else 0
          best_45m_power :=
            if 2700 ≤ watts.length then
              PowerCalculator.pymax (PowerCalculator.rolling_average watts time_data 2700)
            else 0
          best_1hr_power :=
            if 3600 ≤ watts.length then
              PowerCalculator.pymax (PowerCalculator.rolling_average watts time_data 3600)
            else 0
          max_power := PowerCalculator.pymax watts
          normalized_power :=
            PowerCalculator.calculate_normalized_power watts time_data } := by
  have hfilter :
      ((watts.zip time_data).filter fun pt => decide (0 ≤ pt.1)) =
        watts.zip time_data := by
    rw [List.filter_eq_self]
    rintro ⟨x, y⟩ hxy
    simp only [decide_eq_true_eq]
    exact hnn x (List.of_mem_zip hxy).1
  have hfst : (watts.zip time_data).map Prod.fst = watts :=
    List.map_fst_zip _ _ (le_of_eq hlen)
  have hsnd : (watts.zip time_data).map Prod.snd = time_data :=
    List.map_snd_zip _ _ (le_of_eq hlen.symm)
  have hzlen : (watts.zip time_data).length = watts.length := by
    rw [List.length_zip, ← hlen, min_self]
  have hze : ¬((watts.zip time_data).isEmpty = true) := by
    rw [List.isEmpty_iff]
    intro hz
    apply hne
    have h0 : watts.length = 0 := by rw [← hzlen, hz]; rfl
    exact List.length_eq_zero.mp h0
  simp only [PowerCalculator.calculate_power_intervals]
  rw [if_neg (not_not_intro hlen), hfilter, if_neg hze, hfst, hsnd]

/-- Witness for C5 at a 2-sample series: every fixed window exceeds the
series length, so every best-interval field is 0, while the maximum and
the (too short for NP) normalized power are still computed. -/
theorem C5_power_intervals_witness :
    PowerCalculator.calculate_power_intervals [150, 150] [0, 1] =
      some ⟨0, 0, 0, 0, 0, 150, 0⟩ := by
  rw [C5_power_intervals [150, 150] [0, 1] (by decide) (by decide) (by decide)]
  norm_num [PowerCalculator.pymax, PowerCalculator.calculate_normalized_power]

/-! ## Helper lemmas about the training-load recurrence -/

namespace TrainingLoadCalculator

theorem fitStep_one (a c : TLEntry) (h : c.date - a.date = 1) :
    fitStep a c =
      { c with
        ctl := a.ctl + (c.tss - a.ctl) / 42
        atl := a.atl + atl_increase_dampening * ((c.tss - a.atl) / atl_days)
        tsb := a.ctl + (c.tss - a.ctl) / 42 -
          (a.atl + atl_increase_dampening * ((c.tss - a.atl) / atl_days)) } := by
  simp only [fitStep]
  rw [if_pos h]

theorem fitStep_gap (a c : TLEntry) (h : ¬(c.date - a.date = 1)) :
    fitStep a c =
      { c with
        ctl := a.ctl * Real.exp (-(((c.date - a.date : ℤ) : ℝ) - 1) / 42) +
          (c.tss - a.ctl * Real.exp (-(((c.date - a.date : ℤ) : ℝ) - 1) / 42)) / 42
        atl := a.atl * atl_decay_variable ^ (c.date - a.date) +
          atl_increase_dampening *
            (c.tss * (1 - atl_decay_variable ^ (c.date - a.date)) / atl_days)
        tsb := a.ctl * Real.exp (-(((c.date - a.date : ℤ) : ℝ) - 1) / 42) +
            (c.tss - a.ctl * Real.exp (-(((c.date - a.date : ℤ) : ℝ) - 1) / 42)) / 42 -
          (a.atl * atl_decay_variable ^ (c.date - a.date) +
            atl_increase_dampening *
              (c.tss * (1 - atl_decay_variable ^ (c.date - a.date)) / atl_days)) } := by
  simp only [fitStep]
  rw [if_neg h]

theorem fitStep_date (a c : TLEntry) : (fitStep a c).date = c.date := by
  by_cases h : c.date - a.date = 1
  · rw [fitStep_one a c h]
  · rw [fitStep_gap a c h]

theorem fitStep_tss (a c : TLEntry) : (fitStep a c).tss = c.tss := by
  by_cases h : c.date - a.date = 1
  · rw [fitStep_one a c h]
  · rw [fitStep_gap a c h]

theorem fitStep_tsb (a c : TLEntry) :
    (fitStep a c).tsb = (fitStep a c).ctl - (fitStep a c).atl := by
  by_cases h : c.date - a.date = 1
  · rw [fitStep_one a c h]
  · rw [fitStep_gap a c h]

theorem fitStep_ctl_one (a c : TLEntry) (h : c.date - a.date = 1) :
    (fitStep a c).ctl = a.ctl + (c.tss - a.ctl) / 42 := by
  rw [fitStep_one a c h]

theorem fitStep_atl_one (a c : TLEntry) (h : c.date - a.date = 1) :
    (fitStep a c).atl =
      a.atl + atl_increase_dampening * ((c.tss - a.atl) / atl_days) := by
  rw [fitStep_one a c h]

theorem fitStep_ctl_gap (a c : TLEntry) (h : ¬(c.date - a.date = 1)) :
    (fitStep a c).ctl =
      a.ctl * Real.exp (-(((c.date - a.date : ℤ) : ℝ) - 1) / 42) +
        (c.tss - a.ctl * Real.exp (-(((c.date - a.date : ℤ) : ℝ) - 1) / 42)) / 42 := by
  rw [fitStep_gap a c h]

theorem fitStep_fix (a c : TLEntry) : fitStep a (fitStep a c) = fitStep a c := by
  by_cases h : c.date - a.date = 1
  · rw [fitStep_one a c h]
    exact fitStep_one a _ h
  · rw [fitStep_gap a c h]
    exact fitStep_gap a _ h

theorem initFirst_date (e : TLEntry) : (initFirst e).date = e.date := rfl

theorem initFirst_tss (e : TLEntry) : (initFirst e).tss = e.tss := rfl

theorem initFirst_ctl (e : TLEntry) : (initFirst e).ctl = e.tss / 42 := rfl

theorem initFirst_atl (e : TLEntry) : (initFirst e).atl = e.tss / atl_days := rfl

theorem initFirst_tsb (e : TLEntry) :
    (initFirst e).tsb = (initFirst e).ctl - (initFirst e).atl := rfl

theorem recurrence_length (p : TLEntry) (l : List TLEntry) :
    (recurrence p l).length = l.length := by
  induction l generalizing p with
  | nil => rfl
  | cons c cs ih => simp [recurrence, ih]

theorem chain'_fitStep_cons (p : TLEntry) (l : List TLEntry) :
    List.Chain' (fun a b => b = fitStep a b) (p :: recurrence p l) := by
  induction l generalizing p with
  | nil => simp [recurrence]
  | cons c cs ih =>
      simp only [recurrence]
      exact List.Chain'.cons (fitStep_fix p c).symm (ih (fitStep p c))

theorem chain'_calculate (l : List TLEntry) :
    List.Chain' (fun a b => b = fitStep a b) (calculate_fitness_metrics l) := by
  unfold calculate_fitness_metrics
  cases hs : List.insertionSort dateLE l with
  | nil => simp
  | cons f rest => exact chain'_fitStep_cons (initFirst f) rest

theorem calculate_length (l : List TLEntry) :
    (calculate_fitness_metrics l).length = l.length := by
  have hsl := List.length_insertionSort dateLE l
  unfold calculate_fitness_metrics
  cases hs : List.insertionSort dateLE l with
  | nil => rw [hs] at hsl; simpa using hsl
  | cons f rest =>
      rw [hs] at hsl
      simp only [List.length_cons, recurrence_length]
      simpa using hsl

theorem calculate_consecutive (l : List TLEntry) (i : ℕ)
    (h : i + 1 < (calculate_fitness_metrics l).length) :
    (calculate_fitness_metrics l).getD (i + 1) default =
      fitStep ((calculate_fitness_metrics l).getD i default)
        ((calculate_fitness_metrics l).getD (i + 1) default) := by
  have hc := chain'_calculate l
  rw [List.chain'_iff_get] at hc
  have hr := hc i (by omega)
  rw [List.getD_eq_getElem _ _ (by omega : i < (calculate_fitness_metrics l).length),
    List.getD_eq_getElem _ _ h]
  simpa [List.get_eq_getElem] using hr

theorem recurrence_mem_tsb (p : TLEntry) (l : List TLEntry) :
    ∀ r ∈ recurrence p l, r.tsb = r.ctl - r.atl := by
  induction l generalizing p with
  | nil => simp [recurrence]
  | cons c cs ih =>
      intro r hr
      simp only [recurrence, List.mem_cons] at hr
      rcases hr with rfl | hr
      · exact fitStep_tsb p c
      · exact ih (fitStep p c) r hr

theorem insertionSort_single (a : TLEntry) :
    List.insertionSort dateLE [a] = [a] := by
  simp [List.insertionSort, List.orderedInsert]

theorem insertionSort_pair (a b : TLEntry) (hab : a.date ≤ b.date) :
    List.insertionSort dateLE [a, b] = [a, b] := by
  simp [List.insertionSort, List.orderedInsert, dateLE, hab]

theorem calculate_single (a : TLEntry) :
    calculate_fitness_metrics [a] = [initFirst a] := by
  unfold calculate_fitness_metrics
  rw [insertionSort_single]
  simp [recurrence]

theorem calculate_pair (a b : TLEntry) (hab : a.date ≤ b.date) :
    calculate_fitness_metrics [a, b] =
      [initFirst a, fitStep (initFirst a) b] := by
  unfold calculate_fitness_metrics
  rw [insertionSort_pair a b hab]
  simp [recurrence]

/-- Arithmetic core of the detraining property: one gap step applied to a
positive CTL with zero incoming TSS strictly decreases it, because
`exp x < 1` for `x < 0`. -/
theorem ctl_gap_decrease (ctl0 : ℝ) (h0 : 0 < ctl0) (x : ℝ) (hx : x < 0) :
    ctl0 * Real.exp x + (0 - ctl0 * Real.exp x) / 42 < ctl0 := by
  have hE0 : 0 < Real.exp x := Real.exp_pos x
  have hE1 : Real.exp x < 1 := Real.exp_lt_one_iff.mpr hx
  nlinarith

theorem mergeEntry_date (tl : TLEntry) (a : ActivityDay) :
    (mergeEntry tl a).date = tl.date := rfl

theorem mergeEntry_tss (tl : TLEntry) (a : ActivityDay) :
    (mergeEntry tl a).tss = tl.tss + a.tss := rfl

theorem freshEntry_date (a : ActivityDay) : (freshEntry a).date = a.date := rfl

theorem freshEntry_tss (a : ActivityDay) : (freshEntry a).tss = a.tss := rfl

theorem sumTssOn_append_single (xs : List ActivityDay) (a : ActivityDay) (d : ℤ) :
    sumTssOn (xs ++ [a]) d =
      sumTssOn xs d + if a.date = d then a.tss else 0 := by
  unfold sumTssOn
  rw [List.filter_append, List.map_append, List.sum_append]
  congr 1
  by_cases h : a.date = d
  · simp [List.filter_cons, h]
  · simp [List.filter_cons, h]

theorem sumTssOn_eq_zero (xs : List ActivityDay) (d : ℤ)
    (h : ∀ x ∈ xs, x.date ≠ d) : sumTssOn xs d = 0 := by
  unfold sumTssOn
  rw [List.filter_eq_nil_iff.mpr (by intro x hx; simpa using h x hx)]
  rfl

theorem updateFirst_map_date (d : ℤ) (f : TLEntry → TLEntry)
    (hf : ∀ x, (f x).date = x.date) :
    ∀ l : List TLEntry, (updateFirst d f l).map (·.date) = l.map (·.date) := by
  intro l
  induction l with
  | nil => rfl
  | cons x xs ih =>
      by_cases h : x.date = d
      · simp [updateFirst, h, hf]
      · simp [updateFirst, h, ih]

theorem mem_updateFirst_char (d : ℤ) (f : TLEntry → TLEntry) :
    ∀ l : List TLEntry, (l.map (·.date)).Nodup →
      ∀ e ∈ updateFirst d f l,
        (e ∈ l ∧ e.date ≠ d) ∨ ∃ x ∈ l, x.date = d ∧ e = f x := by
  intro l
  induction l with
  | nil => intro _ e he; simp [updateFirst] at he
  | cons x xs ih =>
      intro hnd e he
      rw [List.map_cons, List.nodup_cons] at hnd
      by_cases h : x.date = d
      · simp only [updateFirst] at he
        rw [if_pos h] at he
        rcases List.mem_cons.mp he with rfl | hexs
        · exact Or.inr ⟨x, List.mem_cons_self x xs, h, rfl⟩
        · refine Or.inl ⟨List.mem_cons_of_mem x hexs, ?_⟩
          intro hed
          apply hnd.1
          rw [h, ← hed]
          exact List.mem_map_of_mem _ hexs
      · simp only [updateFirst] at he
        rw [if_neg h] at he
        rcases List.mem_cons.mp he with rfl | hexs
        · exact Or.inl ⟨List.mem_cons_self _ _, h⟩
        · rcases ih hnd.2 e hexs with ⟨hm, hne⟩ | ⟨y, hy, hyd, hef⟩
          · exact Or.inl ⟨List.mem_cons_of_mem x hm, hne⟩
          · exact Or.inr ⟨y, List.mem_cons_of_mem x hy, hyd, hef⟩

theorem exists_date_iff (l : List TLEntry) (dd : ℤ) :
    (∃ e ∈ l, e.date = dd) ↔ dd ∈ l.map (·.date) := by
  simp [List.mem_map]

theorem addActivity_inv (consumed : List ActivityDay) (loads : List TLEntry)
    (a : ActivityDay)
    (h1 : (loads.map (·.date)).Nodup)
    (h2 : ∀ e ∈ loads, e.tss = sumTssOn consumed e.date)
    (h3 : ∀ dd : ℤ, (∃ e ∈ loads, e.date = dd) ↔ ∃ x ∈ consumed, x.date = dd) :
    ((addActivity loads a).map (·.date)).Nodup ∧
    (∀ e ∈ addActivity loads a, e.tss = sumTssOn (consumed ++ [a]) e.date) ∧
    (∀ dd : ℤ, (∃ e ∈ addActivity loads a, e.date = dd) ↔
      ∃ x ∈ consumed ++ [a], x.date = dd) := by
  by_cases hany : (loads.any fun tl => decide (tl.date = a.date)) = true
  · have hex : ∃ x ∈ loads, x.date = a.date := by
      simpa using List.any_eq_true.mp hany
    have hmd : ∀ x, ((fun tl => mergeEntry tl a) x).date = x.date :=
      fun x => mergeEntry_date x a
    have hdates :
        (updateFirst a.date (fun tl => mergeEntry tl a) loads).map (·.date) =
          loads.map (·.date) := updateFirst_map_date a.date _ hmd loads
    have haddeq : addActivity loads a =
        updateFirst a.date (fun tl => mergeEntry tl a) loads := by
      unfold addActivity
      rw [if_pos hany]
    refine ⟨?_, ?_, ?_⟩
    · rw [haddeq, hdates]
      exact h1
    · intro e he
      rw [haddeq] at he
      rcases mem_updateFirst_char a.date _ loads h1 e he with
        ⟨hm, hne⟩ | ⟨x, hx, hxd, rfl⟩
      · rw [sumTssOn_append_single, if_neg (fun hh => hne hh.symm), add_zero]
        exact h2 e hm
      · rw [mergeEntry_tss, mergeEntry_date, sumTssOn_append_single,
          if_pos hxd.symm, h2 x hx]
    · intro dd
      rw [haddeq, exists_date_iff, hdates, ← exists_date_iff, h3]
      constructor
      · rintro ⟨x, hx, hxd⟩
        exact ⟨x, List.mem_append_left _ hx, hxd⟩
      · rintro ⟨x, hx, hxd⟩
        rcases List.mem_append.mp hx with hxc | hxa
        · exact ⟨x, hxc, hxd⟩
        · have hxa2 : x = a := by simpa using hxa
          subst hxa2
          obtain ⟨y, hy, hyd⟩ := hex
          exact (h3 dd).mp ⟨y, hy, by rw [hyd, hxd]⟩
  · have hnone : ∀ x ∈ loads, x.date ≠ a.date := by
      intro x hx hxd
      apply hany
      rw [List.any_eq_true]
      exact ⟨x, hx, by simpa using hxd⟩
    have haddeq : addActivity loads a = loads ++ [freshEntry a] := by
      unfold addActivity
      rw [if_neg hany]
    have hnotin : a.date ∉ loads.map (·.date) := by
      intro hmem
      obtain ⟨e, he, hed⟩ := List.mem_map.mp hmem
      exact hnone e he hed
    have hnoc : ∀ x ∈ consumed, x.date ≠ a.date := by
      intro x hx hxd
      obtain ⟨e, he, hed⟩ := (h3 a.date).mpr ⟨x, hx, hxd⟩
      exact hnone e he hed
    refine ⟨?_, ?_, ?_⟩
    · rw [haddeq, List.map_append, List.nodup_append]
      refine ⟨h1, by simp, ?_⟩
      intro b hb hb2
      have hb3 : b = (freshEntry a).date := by simpa using hb2
      rw [hb3, freshEntry_date] at hb
      exact hnotin hb
    · intro e he
      rw [haddeq] at he
      rcases List.mem_append.mp he with hm | hfr
      · rw [sumTssOn_append_single, if_neg (fun hh => hnone e hm hh.symm), add_zero]
        exact h2 e hm
      · have hef : e = freshEntry a := by simpa using hfr
        subst hef
        rw [freshEntry_tss, freshEntry_date, sumTssOn_append_single, if_pos rfl,
          sumTssOn_eq_zero consumed a.date hnoc, zero_add]
    · intro dd
      rw [haddeq]
      constructor
      · rintro ⟨e, he, hed⟩
        rcases List.mem_append.mp he with hm | hfr
        · obtain ⟨x, hx, hxd⟩ := (h3 dd).mp ⟨e, hm, hed⟩
          exact ⟨x, List.mem_append_left _ hx, hxd⟩
        · have hef : e = freshEntry a := by simpa using hfr
          subst hef
          rw [freshEntry_date] at hed
          exact ⟨a, List.mem_append_right _ (by simp), hed⟩
      · rintro ⟨x, hx, hxd⟩
        rcases List.mem_append.mp hx with hxc | hxa
        · obtain ⟨e, he, hed⟩ := (h3 dd).mpr ⟨x, hxc, hxd⟩
          exact ⟨e, List.mem_append_left _ he, hed⟩
        · have hxa2 : x = a := by simpa using hxa
          refine ⟨freshEntry a, List.mem_append_right _ (by simp), ?_⟩
          rw [freshEntry_date, ← hxa2]
          exact hxd

theorem foldl_addActivity_inv :
    ∀ (rest pre : List ActivityDay) (loads : List TLEntry),
      (loads.map (·.date)).Nodup →
      (∀ e ∈ loads, e.tss = sumTssOn pre e.date) →
      (∀ dd : ℤ, (∃ e ∈ loads, e.date = dd) ↔ ∃ x ∈ pre, x.date = dd) →
      ((rest.foldl addActivity loads).map (·.date)).Nodup ∧
      (∀ e ∈ rest.foldl addActivity loads,
        e.tss = sumTssOn (pre ++ rest) e.date) ∧
      (∀ dd : ℤ, (∃ e ∈ rest.foldl addActivity loads, e.date = dd) ↔
        ∃ x ∈ pre ++ rest, x.date = dd) := by
  intro rest
  induction rest with
  | nil =>
      intro pre loads h1 h2 h3
      simp only [List.foldl_nil, List.append_nil]
      exact ⟨h1, h2, h3⟩
  | cons a rs ih =>
      intro pre loads h1 h2 h3
      simp only [List.foldl_cons]
      have step := addActivity_inv pre loads a h1 h2 h3
      have hmain := ih (pre ++ [a]) (addActivity loads a) step.1 step.2.1 step.2.2
      have hassoc : pre ++ [a] ++ rs = pre ++ a :: rs := by simp
      rw [hassoc] at hmain
      exact hmain

end TrainingLoadCalculator

/-! ## Claims about the training-load recurrence -/

open TrainingLoadCalculator in
/-- C2: for every (chronological) list of daily training-load records,
every record produced by the fitness-metrics computation satisfies
TSB = CTL - ATL exactly, and the day-0 initialization sets CTL = TSS/42
and ATL = TSS/7. -/
theorem C2_tsb_invariant (l : List TLEntry) :
    (∀ r ∈ calculate_fitness_metrics l, r.tsb = r.ctl - r.atl) ∧
    (∀ r0, (calculate_fitness_metrics l).head? = some r0 →
      r0.ctl = r0.tss / 42 ∧ r0.atl = r0.tss / atl_days ∧
        r0.tsb = r0.ctl - r0.atl) := by
  unfold calculate_fitness_metrics
  cases hs : List.insertionSort dateLE l with
  | nil =>
      refine ⟨by simp, ?_⟩
      intro r0 h
      simp at h
  | cons f rest =>
      constructor
      · intro r hr
        simp only [List.mem_cons] at hr
        rcases hr with rfl | hr
        · exact initFirst_tsb f
        · exact recurrence_mem_tsb (initFirst f) rest r hr
      · intro r0 h
        simp only [List.head?_cons, Option.some.injEq] at h
        subst h
        exact ⟨initFirst_ctl f, initFirst_atl f, initFirst_tsb f⟩

open TrainingLoadCalculator in
/-- Witness for C2 on the one-day history `[(date 0, TSS 84)]`: the
produced record has TSB = CTL - ATL, CTL = TSS/42 and ATL = TSS/7. -/
theorem C2_tsb_invariant_witness :
    (((calculate_fitness_metrics [⟨0, 84, 0, 0, 0, 0, 0, 1, 0⟩]).getD 0
        default).tsb =
      ((calculate_fitness_metrics [⟨0, 84, 0, 0, 0, 0, 0, 1, 0⟩]).getD 0
        default).ctl -
      ((calculate_fitness_metrics [⟨0, 84, 0, 0, 0, 0, 0, 1, 0⟩]).getD 0
        default).atl) ∧
    ((calculate_fitness_metrics [⟨0, 84, 0, 0, 0, 0, 0, 1, 0⟩]).getD 0
        default).ctl =
      ((calculate_fitness_metrics [⟨0, 84, 0, 0, 0, 0, 0, 1, 0⟩]).getD 0
        default).tss / 42 := by
  have h := C2_tsb_invariant [⟨0, 84, 0, 0, 0, 0, 0, 1, 0⟩]
  have hev : calculate_fitness_metrics [⟨0, 84, 0, 0, 0, 0, 0, 1, 0⟩] =
      [initFirst ⟨0, 84, 0, 0, 0, 0, 0, 1, 0⟩] := calculate_single _
  refine ⟨h.1 _ ?_, (h.2 _ ?_).1⟩
  · rw [hev]
    simp
  · rw [hev]
    rfl

open TrainingLoadCalculator in
/-- C4 (amended): for every pair of consecutive records whose dates
differ by exactly 1 day, the new CTL equals previous CTL +
(TSS - previous CTL)/42, and the new ATL equals previous ATL plus the
fixed dampening factor times (TSS - previous ATL)/7 — the dampening is
applied to the whole delta term, for decreases as well as increases. -/
theorem C4_one_day_step (l : List TLEntry) (i : ℕ)
    (h : i + 1 < (calculate_fitness_metrics l).length)
    (hgap : ((calculate_fitness_metrics l).getD (i + 1) default).date -
        ((calculate_fitness_metrics l).getD i default).date = 1) :
    ((calculate_fitness_metrics l).getD (i + 1) default).ctl =
      ((calculate_fitness_metrics l).getD i default).ctl +
        (((calculate_fitness_metrics l).getD (i + 1) default).tss -
          ((calculate_fitness_metrics l).getD i default).ctl) / 42 ∧
    ((calculate_fitness_metrics l).getD (i + 1) default).atl =
      ((calculate_fitness_metrics l).getD i default).atl +
        atl_increase_dampening *
          ((((calculate_fitness_metrics l).getD (i + 1) default).tss -
            ((calculate_fitness_metrics l).getD i default).atl) / atl_days) := by
  have hstep := calculate_consecutive l i h
  constructor
  · conv_lhs => rw [hstep]
    rw [fitStep_ctl_one _ _ hgap]
  · conv_lhs => rw [hstep]
    rw [fitStep_atl_one _ _ hgap]

open TrainingLoadCalculator in
/-- C1: for every pair of consecutive daily records whose dates differ by
more than 1 day, the new CTL equals decayed + (TSS - decayed)/42 with
decayed = previous CTL times exp(-(gap-1)/42); and on the history
`[(day 0, TSS 100), (day 10, TSS 0)]` — a 10-day break with zero TSS in
between — the CTL recorded after the gap is strictly less than the CTL
before it. -/
theorem C1_gap_decay :
    (∀ (l : List TLEntry) (i : ℕ), i + 1 < (calculate_fitness_metrics l).length →
      1 < ((calculate_fitness_metrics l).getD (i + 1) default).date -
          ((calculate_fitness_metrics l).getD i default).date →
      ((calculate_fitness_metrics l).getD (i + 1) default).ctl =
        ((calculate_fitness_metrics l).getD i default).ctl *
            Real.exp
              (-(((((calculate_fitness_metrics l).getD (i + 1) default).date -
                    ((calculate_fitness_metrics l).getD i default).date : ℤ) : ℝ) -
                  1) / 42) +
          (((calculate_fitness_metrics l).getD (i + 1) default).tss -
            ((calculate_fitness_metrics l).getD i default).ctl *
              Real.exp
                (-(((((calculate_fitness_metrics l).getD (i + 1) default).date -
                      ((calculate_fitness_metrics l).getD i default).date : ℤ) : ℝ) -
                    1) / 42)) / 42) ∧
    ((calculate_fitness_metrics
        [⟨0, 100, 0, 0, 0, 0, 0, 1, 0⟩, ⟨10, 0, 0, 0, 0, 0, 0, 1, 0⟩]).getD 1
          default).ctl <
      ((calculate_fitness_metrics
        [⟨0, 100, 0, 0, 0, 0, 0, 1, 0⟩, ⟨10, 0, 0, 0, 0, 0, 0, 1, 0⟩]).getD 0
          default).ctl := by
  constructor
  · intro l i h hgap
    have hstep := calculate_consecutive l i h
    conv_lhs => rw [hstep]
    rw [fitStep_ctl_gap _ _ (by omega)]
  · rw [calculate_pair _ _ (by decide)]
    simp only [List.getD_cons_zero, List.getD_cons_succ]
    rw [fitStep_ctl_gap _ _ (by decide), initFirst_ctl, initFirst_date]
    dsimp only
    apply ctl_gap_decrease
    · norm_num
    · norm_num

open TrainingLoadCalculator in
/-- Witness for the gap branch of C1 on the history
`[(day 0, TSS 100), (day 10, TSS 0)]` at the consecutive pair (0, 1). -/
theorem C1_gap_decay_witness :
    ((calculate_fitness_metrics
        [⟨0, 100, 0, 0, 0, 0, 0, 1, 0⟩, ⟨10, 0, 0, 0, 0, 0, 0, 1, 0⟩]).getD 1
          default).ctl =
      ((calculate_fitness_metrics
          [⟨0, 100, 0, 0, 0, 0, 0, 1, 0⟩, ⟨10, 0, 0, 0, 0, 0, 0, 1, 0⟩]).getD 0
            default).ctl *
          Real.exp
            (-(((((calculate_fitness_metrics
                      [⟨0, 100, 0, 0, 0, 0, 0, 1, 0⟩,
                        ⟨10, 0, 0, 0, 0, 0, 0, 1, 0⟩]).getD 1 default).date -
                  ((calculate_fitness_metrics
                      [⟨0, 100, 0, 0, 0, 0, 0, 1, 0⟩,
                        ⟨10, 0, 0, 0, 0, 0, 0, 1, 0⟩]).getD 0 default).date :
                  ℤ) : ℝ) - 1) / 42) +
        (((calculate_fitness_metrics
            [⟨0, 100, 0, 0, 0, 0, 0, 1, 0⟩, ⟨10, 0, 0, 0, 0, 0, 0, 1, 0⟩]).getD 1
              default).tss -
          ((calculate_fitness_metrics
              [⟨0, 100, 0, 0, 0, 0, 0, 1, 0⟩, ⟨10, 0, 0, 0, 0, 0, 0, 1, 0⟩]).getD 0
                default).ctl *
            Real.exp
              (-(((((calculate_fitness_metrics
                        [⟨0, 100, 0, 0, 0, 0, 0, 1, 0⟩,
                          ⟨10, 0, 0, 0, 0, 0, 0, 1, 0⟩]).getD 1 default).date -
                    ((calculate_fitness_metrics
                        [⟨0, 100, 0, 0, 0, 0, 0, 1, 0⟩,
                          ⟨10, 0, 0, 0, 0, 0, 0, 1, 0⟩]).getD 0 default).date :
                    ℤ) : ℝ) - 1) / 42)) / 42 :=
  C1_gap_decay.1 [⟨0, 100, 0, 0, 0, 0, 0, 1, 0⟩, ⟨10, 0, 0, 0, 0, 0, 0, 1, 0⟩] 0
    (by rw [calculate_length]; decide)
    (by
      rw [calculate_pair _ _ (by decide)]
      simp only [List.getD_cons_zero, List.getD_cons_succ, fitStep_date,
        initFirst_date]
      decide)

open TrainingLoadCalculator in
/-- Counterexample to C4 as stated: on the history
`[(day 0, TSS 70), (day 1, TSS 0)]` the day-1 TSS (0) is below the
previous ATL (10), yet the code still applies the 0.7 dampening: the
recorded ATL is 9, not the undampened 10 + (0-10)/7 = 60/7 the claim
predicts for that case. -/
theorem C4_one_day_step_cex :
    ((calculate_fitness_metrics
        [⟨0, 70, 0, 0, 0, 0, 0, 1, 0⟩, ⟨1, 0, 0, 0, 0, 0, 0, 1, 0⟩]).getD 1
          default).tss <
      ((calculate_fitness_metrics
        [⟨0, 70, 0, 0, 0, 0, 0, 1, 0⟩, ⟨1, 0, 0, 0, 0, 0, 0, 1, 0⟩]).getD 0
          default).atl ∧
    ((calculate_fitness_metrics
        [⟨0, 70, 0, 0, 0, 0, 0, 1, 0⟩, ⟨1, 0, 0, 0, 0, 0, 0, 1, 0⟩]).getD 1
          default).atl ≠
      ((calculate_fitness_metrics
        [⟨0, 70, 0, 0, 0, 0, 0, 1, 0⟩, ⟨1, 0, 0, 0, 0, 0, 0, 1, 0⟩]).getD 0
          default).atl +
        (((calculate_fitness_metrics
            [⟨0, 70, 0, 0, 0, 0, 0, 1, 0⟩, ⟨1, 0, 0, 0, 0, 0, 0, 1, 0⟩]).getD 1
              default).tss -
          ((calculate_fitness_metrics
            [⟨0, 70, 0, 0, 0, 0, 0, 1, 0⟩, ⟨1, 0, 0, 0, 0, 0, 0, 1, 0⟩]).getD 0
              default).atl) / atl_days := by
  rw [calculate_pair _ _ (by decide)]
  simp only [List.getD_cons_zero, List.getD_cons_succ]
  rw [fitStep_tss, fitStep_atl_one _ _ (by decide), initFirst_atl]
  constructor
  · norm_num [atl_days]
  · norm_num [atl_days, atl_increase_dampening]

open TrainingLoadCalculator in
/-- Witness for the amended C4 on the history
`[(day 0, TSS 70), (day 1, TSS 0)]` at the consecutive pair (0, 1). -/
theorem C4_one_day_step_witness :
    ((calculate_fitness_metrics
        [⟨0, 70, 0, 0, 0, 0, 0, 1, 0⟩, ⟨1, 0, 0, 0, 0, 0, 0, 1, 0⟩]).getD 1
          default).ctl =
      ((calculate_fitness_metrics
        [⟨0, 70, 0, 0, 0, 0, 0, 1, 0⟩, ⟨1, 0, 0, 0, 0, 0, 0, 1, 0⟩]).getD 0
          default).ctl +
        (((calculate_fitness_metrics
            [⟨0, 70, 0, 0, 0, 0, 0, 1, 0⟩, ⟨1, 0, 0, 0, 0, 0, 0, 1, 0⟩]).getD 1
              default).tss -
          ((calculate_fitness_metrics
            [⟨0, 70, 0, 0, 0, 0, 0, 1, 0⟩, ⟨1, 0, 0, 0, 0, 0, 0, 1, 0⟩]).getD 0
              default).ctl) / 42 :=
  (C4_one_day_step [⟨0, 70, 0, 0, 0, 0, 0, 1, 0⟩, ⟨1, 0, 0, 0, 0, 0, 0, 1, 0⟩] 0
    (by rw [calculate_length]; decide)
    (by
      rw [calculate_pair _ _ (by decide)]
      simp only [List.getD_cons_zero, List.getD_cons_succ, fitStep_date,
        initFirst_date]
      decide)).1

open TrainingLoadCalculator in
/-- C6: in the per-activity TSS fold of `sync_training_load`, every set
of same-date activities is folded into exactly one daily record (output
dates are distinct and are exactly the input dates) whose TSS is the sum
of the individual activities' TSS values; in particular two same-date
activities with TSS 50 and 30 yield one single daily record with TSS 80,
which enters the CTL/ATL recurrence as a single day. -/
theorem C6_same_date_accumulation (acts : List ActivityDay) :
    ((buildDailyLoads acts).map (·.date)).Nodup ∧
    (∀ e ∈ buildDailyLoads acts, e.tss = sumTssOn acts e.date) ∧
    (∀ dd : ℤ, (∃ e ∈ buildDailyLoads acts, e.date = dd) ↔
      ∃ x ∈ acts, x.date = dd) ∧
    (sync_training_load [⟨5, 50, 0, 0, 0⟩, ⟨5, 30, 0, 0, 0⟩]).length = 1 ∧
    ((sync_training_load [⟨5, 50, 0, 0, 0⟩, ⟨5, 30, 0, 0, 0⟩]).getD 0
        default).tss = 80 := by
  have hb : buildDailyLoads [⟨5, 50, 0, 0, 0⟩, ⟨5, 30, 0, 0, 0⟩] =
      [⟨5, 80, 0, 0, 0, 0, 0, 1, 0⟩] := by
    norm_num [buildDailyLoads, addActivity, updateFirst, mergeEntry, freshEntry]
  have hmain := foldl_addActivity_inv acts [] [] (by simp) (by simp) (by simp)
  simp only [List.nil_append] at hmain
  refine ⟨hmain.1, hmain.2.1, hmain.2.2, ?_, ?_⟩
  · rw [sync_training_load, calculate_length, hb]
    rfl
  · rw [sync_training_load, hb, calculate_single]
    rfl

open TrainingLoadCalculator in
/-- Witness for C6 on the two same-date activities with TSS 50 and 30:
the single produced record's TSS equals the summed TSS of the activities
on its date. -/
theorem C6_same_date_accumulation_witness :
    ((buildDailyLoads [⟨5, 50, 0, 0, 0⟩, ⟨5, 30, 0, 0, 0⟩]).getD 0
        default).tss =
      sumTssOn [⟨5, 50, 0, 0, 0⟩, ⟨5, 30, 0, 0, 0⟩]
        ((buildDailyLoads [⟨5, 50, 0, 0, 0⟩, ⟨5, 30, 0, 0, 0⟩]).getD 0
            default).date := by
  refine (C6_same_date_accumulation [⟨5, 50, 0, 0, 0⟩, ⟨5, 30, 0, 0, 0⟩]).2.1 _ ?_
  have hb : buildDailyLoads [⟨5, 50, 0, 0, 0⟩, ⟨5, 30, 0, 0, 0⟩] =
      [⟨5, 80, 0, 0, 0, 0, 0, 1, 0⟩] := by
    norm_num [buildDailyLoads, addActivity, updateFirst, mergeEntry, freshEntry]
  rw [hb]
  simp

/-! ## Claims about the activity loader -/

namespace ActivityLoader

theorem save_activities_eq (state : List ActivityRow) (page : List RawActivity) :
    save_activities state page =
      state ++ page.filterMap fun act =>
        if act.id ∈ state.map (·.strava_id) then none
        else convertActivity act := rfl

theorem convertActivity_id (act : RawActivity) (r : ActivityRow)
    (h : convertActivity act = some r) : r.strava_id = act.id := by
  unfold convertActivity at h
  cases hs : act.start_date with
  | none => rw [hs] at h; exact absurd h (by simp)
  | some d =>
      rw [hs] at h
      have h2 := Option.some.inj h
      rw [← h2]

/-- Every row added by one save pass carries an id that was not yet
persisted. -/
theorem new_rows_fresh (state : List ActivityRow) (page : List RawActivity) :
    ∀ r ∈ (page.filterMap fun act =>
        if act.id ∈ state.map (·.strava_id) then none
        else convertActivity act),
      r.strava_id ∉ state.map (·.strava_id) := by
  intro r hr
  obtain ⟨act, hact, hconv⟩ := List.mem_filterMap.mp hr
  by_cases hin : act.id ∈ state.map (·.strava_id)
  · rw [if_pos hin] at hconv
    exact absurd hconv (by simp)
  · rw [if_neg hin] at hconv
    rw [convertActivity_id act r hconv]
    exact hin

end ActivityLoader

open ActivityLoader in
/-- C7: activity ingestion is idempotent on external id: running
`save_activities` twice on the same page yields exactly the same
persisted set as running it once, and for an already-known id the rows
with that id are left exactly as they were (no duplicate row). -/
theorem C7_save_idempotent (state : List ActivityRow) (page : List RawActivity) :
    save_activities (save_activities state page) page =
      save_activities state page ∧
    (∀ i ∈ state.map (·.strava_id),
      (save_activities state page).filter (fun r => decide (r.strava_id = i)) =
        state.filter fun r => decide (r.strava_id = i)) := by
  constructor
  · have hnil :
        (page.filterMap fun act =>
          if act.id ∈ (save_activities state page).map (·.strava_id) then none
          else convertActivity act) = [] := by
      rw [List.filterMap_eq_nil_iff]
      intro act hact
      cases hcv : convertActivity act with
      | none =>
          split
          · rfl
          · rfl
      | some r =>
          have hidr : r.strava_id = act.id := convertActivity_id act r hcv
          by_cases hin : act.id ∈ state.map (·.strava_id)
          · rw [if_pos ?_]
            rw [save_activities_eq, List.map_append]
            exact List.mem_append_left _ hin
          · have hrN : r ∈ (page.filterMap fun act =>
                if act.id ∈ state.map (·.strava_id) then none
                else convertActivity act) :=
              List.mem_filterMap.mpr ⟨act, hact, by rw [if_neg hin]; exact hcv⟩
            rw [if_pos ?_]
            rw [save_activities_eq, List.map_append]
            apply List.mem_append_right
            rw [← hidr]
            exact List.mem_map_of_mem _ hrN
    rw [save_activities_eq (save_activities state page) page, hnil,
      List.append_nil]
  · intro i hi
    rw [save_activities_eq, List.filter_append]
    have hfn :
        ((page.filterMap fun act =>
          if act.id ∈ state.map (·.strava_id) then none
          else convertActivity act).filter fun r => decide (r.strava_id = i)) =
          [] := by
      rw [List.filter_eq_nil_iff]
      intro r hr
      simp only [decide_eq_true_eq]
      intro hri
      exact new_rows_fresh state page r hr (hri ▸ hi)
    rw [hfn, List.append_nil]

open ActivityLoader in
/-- Witness for C7: a one-row table and a page holding one already-known
id (1) and one new id (2); saving twice equals saving once, and the rows
with id 1 are unchanged. -/
theorem C7_save_idempotent_witness :
    save_activities
        (save_activities [⟨1, "a", 0, 0, 0, 0, 0, 0, 0⟩]
          [⟨1, "x", none, none, none, none, none, none, some 0⟩,
           ⟨2, "y", none, none, none, none, none, none, some 0⟩])
        [⟨1, "x", none, none, none, none, none, none, some 0⟩,
         ⟨2, "y", none, none, none, none, none, none, some 0⟩] =
      save_activities [⟨1, "a", 0, 0, 0, 0, 0, 0, 0⟩]
        [⟨1, "x", none, none, none, none, none, none, some 0⟩,
         ⟨2, "y", none, none, none, none, none, none, some 0⟩] ∧
    (save_activities [⟨1, "a", 0, 0, 0, 0, 0, 0, 0⟩]
        [⟨1, "x", none, none, none, none, none, none, some 0⟩,
         ⟨2, "y", none, none, none, none, none, none, some 0⟩]).filter
        (fun r => decide (r.strava_id = 1)) =
      [⟨1, "a", 0, 0, 0, 0, 0, 0, 0⟩].filter fun r => decide (r.strava_id = 1) :=
  ⟨(C7_save_idempotent [⟨1, "a", 0, 0, 0, 0, 0, 0, 0⟩]
      [⟨1, "x", none, none, none, none, none, none, some 0⟩,
       ⟨2, "y", none, none, none, none, none, none, some 0⟩]).1,
   (C7_save_idempotent [⟨1, "a", 0, 0, 0, 0, 0, 0, 0⟩]
      [⟨1, "x", none, none, none, none, none, none, some 0⟩,
       ⟨2, "y", none, none, none, none, none, none, some 0⟩]).2 1 (by simp)⟩

/-! ## Claims about the API client -/

open StravaClient in
/-- C8 (amended): the credential logic signals failure by ordinary
values, not an `AuthError` exception: `get_access_token` returns no token
(Python `None`) when the refresh exchange fails, the constructor raises
when required credentials are absent, and when `force_refresh` is false
and the cached token's expiry is more than 60 seconds in the future the
cached token is returned with no I/O performed and no state change. -/
theorem C8_token_paths :
    (∀ (st : ClientTokenState) (current_time : ℤ) (force_refresh : Bool),
      ¬(force_refresh = false ∧ tokenTruthy st.access_token = true ∧
          current_time + 60 < st.token_expires_at) →
      get_access_token st current_time force_refresh none = (none, st, true)) ∧
    (∀ client_id client_secret refresh_token saved_tok saved_exp,
      (tokenTruthy client_id = false ∨ tokenTruthy client_secret = false ∨
        tokenTruthy refresh_token = false) →
      client_init client_id client_secret refresh_token saved_tok saved_exp =
        Except.error "Missing required environment variables for Strava API") ∧
    (∀ (st : ClientTokenState) (current_time : ℤ) (exchange : Option TokenData),
      tokenTruthy st.access_token = true →
      current_time + 60 < st.token_expires_at →
      get_access_token st current_time false exchange =
        (st.access_token, st, false)) := by
  refine ⟨?_, ?_, ?_⟩
  · intro st t force h
    unfold get_access_token
    rw [if_neg h]
  · intro a b c d e h
    unfold client_init
    rw [if_pos h]
  · intro st t ex h1 h2
    unfold get_access_token
    rw [if_pos ⟨rfl, h1, h2⟩]

open StravaClient in
/-- Counterexample to C8 as stated: with an expired cached token and a
failing refresh exchange, `get_access_token` does not fail with an
`AuthError` — there is no such exception anywhere in the code — it
catches the request error and returns the ordinary value `None` (state
unchanged), which is the embedded result shown here. -/
theorem C8_token_paths_cex :
    get_access_token ⟨some "cached", 0⟩ 1000 false none =
      (none, ⟨some "cached", 0⟩, true) := by
  unfold get_access_token
  rw [if_neg (by decide)]

open StravaClient in
/-- Witness for C8 at concrete states: a failing exchange on an empty
cache returns `none`; a missing client id makes the constructor raise;
a fresh cached token is returned unchanged with no I/O. -/
theorem C8_token_paths_witness :
    get_access_token ⟨none, 0⟩ 1000 false none = (none, ⟨none, 0⟩, true) ∧
    client_init none (some "sec") (some "ref") none none =
      Except.error "Missing required environment variables for Strava API" ∧
    get_access_token ⟨some "tok", 2000⟩ 1000 false (some ⟨"new", 5000⟩) =
      (some "tok", ⟨some "tok", 2000⟩, false) :=
  ⟨C8_token_paths.1 ⟨none, 0⟩ 1000 false (by decide),
   C8_token_paths.2.1 none (some "sec") (some "ref") none none (by decide),
   C8_token_paths.2.2 ⟨some "tok", 2000⟩ 1000 (some ⟨"new", 5000⟩) (by decide)
     (by decide)⟩

open StravaClient in
/-- C9 (amended): when short-window usage is within 2 of the short-window
limit, the rate-limit gate sleeps for the provider-declared reset seconds
(15 on a missing or unparsable header) and returns not-ok; the paginated
activity fetcher then breaks out of its loop — abandoning the remaining
pages — rather than retrying the request. -/
theorem C9_rate_limit_gate :
    (∀ (h : Headers) (us ud ls ld : ℤ),
      parse_header h.rate_limit_usage (0, 0) = (us, ud) →
      parse_header h.rate_limit_limit (100, 1000) = (ls, ld) →
      ls - 2 ≤ us →
      check_rate_limits h =
        (false, some (GateSleep.forSeconds
          ((pyInt (h.rate_limit_reset.getD "15")).getD 15)))) ∧
    (∀ (tok : String) (r : PageResponse) (rest : List PageResponse)
        (refreshes : List (Option String)),
      r.status ≠ 401 → (check_rate_limits r.headers).1 = false →
      fetch_activities (some tok) (r :: rest) refreshes = []) := by
  constructor
  · intro h us ud ls ld hu hl hcond
    simp only [check_rate_limits]
    rw [hu, hl]
    rw [if_pos (Or.inl hcond)]
  · intro tok r rest refreshes h401 hgate
    show fetchGo (r :: rest) refreshes 0 [] = []
    simp only [fetchGo]
    rw [if_neg h401, if_pos hgate]

open StravaClient in
/-- Counterexample to C9 as stated: with usage "99,10" against limit
"100,1000" the gate does return not-ok with the declared 5-second sleep,
but the activity fetcher then abandons the run: it returns `[]` even
though the very next scripted responses (the retry of the same request)
would have produced the activity 101, as the second conjunct shows. -/
theorem C9_rate_limit_gate_cex :
    check_rate_limits ⟨some "99,10", some "100,1000", none, none, some "5"⟩ =
      (false, some (GateSleep.forSeconds 5)) ∧
    fetch_activities (some "tok")
      [⟨200, ⟨some "99,10", some "100,1000", none, none, some "5"⟩, [101]⟩,
       ⟨200, ⟨some "10,10", some "100,1000", none, none, none⟩, [101]⟩,
       ⟨200, ⟨some "10,10", some "100,1000", none, none, none⟩, []⟩] [] = [] ∧
    fetch_activities (some "tok")
      [⟨200, ⟨some "10,10", some "100,1000", none, none, none⟩, [101]⟩,
       ⟨200, ⟨some "10,10", some "100,1000", none, none, none⟩, []⟩] [] =
      [101] := by
  refine ⟨?_, ?_, ?_⟩ <;> rfl

open StravaClient in
/-- Witness for C9: a near-limit header with declared reset 20 makes the
gate sleep 20 seconds and return not-ok, and the fetcher then returns
`[]` for a script whose first response carries those headers. -/
theorem C9_rate_limit_gate_witness :
    check_rate_limits ⟨some "99,10", some "100,1000", none, none, some "20"⟩ =
      (false, some (GateSleep.forSeconds 20)) ∧
    fetch_activities (some "tok")
      [⟨200, ⟨some "99,10", some "100,1000", none, none, some "20"⟩, [7]⟩] [] =
      [] :=
  ⟨C9_rate_limit_gate.1 ⟨some "99,10", some "100,1000", none, none, some "20"⟩
      99 10 100 1000 (by rfl) (by rfl) (by decide),
   C9_rate_limit_gate.2 "tok"
      ⟨200, ⟨some "99,10", some "100,1000", none, none, some "20"⟩, [7]⟩ [] []
      (by decide) (by rfl)⟩

end MyStrava
